import Mathlib

/-!
Shallow embedding of `src/streamlit_app.py` (energy-consumption analyser).

Modelling conventions:
* A pandas timestamp is a `DateTime` (year/month/day/hour/minute, lexicographic
  order); its calendar-date component is a `Date`.
* Real-valued columns are modelled over `ℚ` (exact arithmetic for sums/means).
* A raw CSV cell is abstracted by the outcome of the two pandas coercions the
  program applies to it: `asDateTime` is the result of
  `pd.to_datetime(·, errors := coerce)` (`none` = `NaT`) and `asNum` the result
  of `pd.to_numeric(·, errors := coerce)` (`none` = `NaN`).
* A loaded DataFrame is a `DF`: the record rows plus the derived `Dia`/`Hora`
  columns that the plot functions add in place (mutation of the caller's
  object is modelled by returning the updated `DF`).
* A Python exception caught by `load_data`'s `except` branch, and the
  `ValueError` raised by `Series.idxmax` on an empty series, are modelled as
  `none` results.
-/

/-- A calendar date, the value of `Timestamp.date()` / the `.dt.date` accessor. -/
structure Date where
  year : Nat
  month : Nat
  day : Nat
deriving DecidableEq, Repr

/-- A date-and-time value as produced by `pd.to_datetime` on a parseable cell. -/
structure DateTime where
  year : Nat
  month : Nat
  day : Nat
  hour : Nat
  minute : Nat
deriving DecidableEq, Repr

/-- The calendar-date component of a timestamp (`.dt.date`). -/
def DateTime.date (t : DateTime) : Date :=
  ⟨t.year, t.month, t.day⟩

/-- Chronological order on calendar dates (how pandas sorts date group keys). -/
def dLe (a b : Date) : Prop :=
  a.year < b.year ∨ (a.year = b.year ∧
    (a.month < b.month ∨ (a.month = b.month ∧ a.day ≤ b.day)))

instance : DecidableRel dLe := fun a b => by
  unfold dLe; infer_instance

instance : IsTotal Date dLe := ⟨by intro a b; unfold dLe; omega⟩

instance : IsTrans Date dLe := ⟨by intro a b c; unfold dLe; omega⟩

/-- Chronological order on timestamps (the `>=` / `<=` comparisons of pandas
`Timestamp`s used by the date-range filter). -/
def tLe (a b : DateTime) : Prop :=
  a.year < b.year ∨ (a.year = b.year ∧
    (a.month < b.month ∨ (a.month = b.month ∧
      (a.day < b.day ∨ (a.day = b.day ∧
        (a.hour < b.hour ∨ (a.hour = b.hour ∧ a.minute ≤ b.minute)))))))

instance : DecidableRel tLe := fun a b => by
  unfold tLe; infer_instance

/-- The value `pd.to_datetime` yields on a calendar date: midnight (start of day). -/
def dtMidnight (d : Date) : DateTime :=
  ⟨d.year, d.month, d.day, 0, 0⟩

/-- One validated observation: a row of the cleaned DataFrame returned by
`load_data` (columns `Data/hora`, `Consumo_kwh`, `Custo_total`). -/
structure Record where
  dataHora : DateTime
  consumoKwh : ℚ
  custoTotal : ℚ
deriving DecidableEq, Repr

/-- A raw CSV cell, abstracted by what the two pandas coercions yield on it. -/
structure RawValue where
  asDateTime : Option DateTime
  asNum : Option ℚ
deriving DecidableEq, Repr

instance : Inhabited RawValue := ⟨⟨none, none⟩⟩

/-- The raw table produced by `pd.read_csv`: a header row of column names and
data rows aligned with the header (a missing trailing cell reads as `NaN`,
i.e. the default `RawValue`). -/
structure RawFrame where
  header : List String
  rows : List (List RawValue)
deriving Repr

/-- Python's `str.capitalize()`: first character upper-cased, the rest
lower-cased. -/
def pyCapitalize (s : String) : String :=
  match s.data with
  | [] => ""
  | c :: cs => String.mk (c.toUpper :: cs.map Char.toLower)

/-- Python's `str.strip()`: drop leading and trailing whitespace. -/
def pyStrip (s : String) : String :=
  String.mk (((s.data.dropWhile Char.isWhitespace).reverse.dropWhile
    Char.isWhitespace).reverse)

/-- Python's `str.replace(" ", "_")`: the needle is a single character, so
this is a character-wise substitution. -/
def pyReplaceSpace (s : String) : String :=
  String.mk (s.data.map fun c => if c = ' ' then '_' else c)

/-- Column-name normalization of `load_data`:
`col.strip().replace(" ", "_").capitalize()`. -/
def normalizeCol (c : String) : String :=
  pyCapitalize (pyReplaceSpace (pyStrip c))

/-- The `required_columns` list of `load_data`. -/
def required_columns : List String :=
  ["Data/hora", "Consumo_kwh", "Custo_total"]

/-- The `set(required_columns).issubset(data.columns)` check of `load_data`,
on the normalized header. -/
def requiredPresent (df : RawFrame) : Bool :=
  required_columns.all fun c => (df.header.map normalizeCol).contains c

/-- Whether each required column name matches exactly one normalized header
entry.  When a required label is duplicated, `data[required_columns]` yields
duplicated columns and the subsequent `pd.to_datetime` / `pd.to_numeric` call
receives a two-column DataFrame and raises; the exception is caught and
`load_data` returns `None`.  This predicate guards that exception path. -/
def requiredUnique (df : RawFrame) : Bool :=
  required_columns.all fun c => (df.header.map normalizeCol).count c == 1

/-- Index of the (first) header column whose normalized name is `c`
(label-based column selection). -/
def findCol (header : List String) (c : String) : Option Nat :=
  (header.map normalizeCol).findIdx? fun h => h == c

/-- Row-level cleaning applied to the three selected cells: coerce the
timestamp cell with `pd.to_datetime` and the two numeric cells with
`pd.to_numeric`, then `dropna` across the three critical columns — the row
survives iff all three coercions succeeded. -/
def parseCells (t c x : RawValue) : Option Record :=
  match t.asDateTime, c.asNum, x.asNum with
  | some d, some q, some r => some ⟨d, q, r⟩
  | _, _, _ => none

/-- Model of `load_data`: normalize column names, check the required columns are
present (else error → `none`), select the three required columns, coerce each
and drop incomplete rows.  A duplicated required label makes the coercion
raise inside the `try` block, so the result is `none` in that case too. -/
def load_data (df : RawFrame) : Option (List Record) :=
  if requiredPresent df then
    if requiredUnique df then
      match findCol df.header "Data/hora", findCol df.header "Consumo_kwh",
          findCol df.header "Custo_total" with
      | some it, some ic, some ix =>
          some (df.rows.filterMap fun row =>
            parseCells (row.getD it default) (row.getD ic default)
              (row.getD ix default))
      | _, _, _ => none
    else none
  else none

/-- The three critical cells of each row, in row order (what the cleaning
step actually reads). -/
def coreTriples (df : RawFrame) : List (RawValue × RawValue × RawValue) :=
  match findCol df.header "Data/hora", findCol df.header "Consumo_kwh",
      findCol df.header "Custo_total" with
  | some it, some ic, some ix =>
      df.rows.map fun row =>
        (row.getD it default, row.getD ic default, row.getD ix default)
  | _, _, _ => []

/-- Model of `display_filtered_data`: keep the records whose `Data/hora` lies between
`pd.to_datetime(start_date)` and `pd.to_datetime(end_date)` — both bounds are
the *midnight* of the respective calendar date. -/
def display_filtered_data (data : List Record) (start_date end_date : Date) :
    List Record :=
  data.filter fun r =>
    decide (tLe (dtMidnight start_date) r.dataHora) &&
      decide (tLe r.dataHora (dtMidnight end_date))

/-- Sum of the `Consumo_kwh` column (`Series.sum`; `0` on an empty frame). -/
def sumConsumo (rows : List Record) : ℚ :=
  (rows.map Record.consumoKwh).sum

/-- Arithmetic mean of the `Consumo_kwh` column (`Series.mean`). -/
def meanConsumo (rows : List Record) : ℚ :=
  sumConsumo rows / (rows.length : ℚ)

/-- A loaded DataFrame object as the plot functions see it: the record rows
plus the derived `Dia` / `Hora` columns, present only once some plot function
has assigned them in place. -/
structure DF where
  rows : List Record
  dia : Option (List Date)
  hora : Option (List Nat)
deriving DecidableEq, Repr

/-- Wrap a freshly loaded record sequence as a DataFrame (no derived
columns yet). -/
def mkDF (rows : List Record) : DF :=
  ⟨rows, none, none⟩

/-- Model of `data.groupby('Dia')['Consumo_kwh'].sum()`: one entry per distinct
calendar date present, keys sorted ascending, value the summed consumption of
that date's records. -/
def consumo_diario (rows : List Record) : List (Date × ℚ) :=
  (List.insertionSort dLe (rows.map fun r => r.dataHora.date).dedup).map
    fun d => (d, sumConsumo (rows.filter fun r => decide (r.dataHora.date = d)))

/-- Scan for `Series.idxmax`: index of the first maximal value. -/
def idxmaxGo (best : Date × ℚ) : List (Date × ℚ) → Date
  | [] => best.1
  | y :: ys => if best.2 < y.2 then idxmaxGo y ys else idxmaxGo best ys

/-- Model of `Series.idxmax`: the first index attaining the maximum value; raises
`ValueError` on an empty series (modelled as `none`). -/
def idxmax : List (Date × ℚ) → Option Date
  | [] => none
  | x :: xs => some (idxmaxGo x xs)

/-- Model of `plot_consumo_por_dia`: assigns the derived `Dia` column on the caller's
frame, groups by day, and reports the daily totals together with
`idxmax` (the day of maximum consumption).  The returned pair is (state of
`data` after the call, result); the result is `none` when `idxmax` raises. -/
def plot_consumo_por_dia (df : DF) : DF × Option (List (Date × ℚ) × Date) :=
  let df' : DF := { df with dia := some (df.rows.map fun r => r.dataHora.date) }
  let g := consumo_diario df.rows
  match idxmax g with
  | some d => (df', some (g, d))
  | none => (df', none)

/-- Model of `data.groupby('Hora')['Consumo_kwh'].mean()`: one entry per hour-of-day
present, keys sorted ascending, value the mean consumption of that hour's
records (across all dates). -/
def consumo_horario (rows : List Record) : List (Nat × ℚ) :=
  (List.insertionSort (· ≤ ·) (rows.map fun r => r.dataHora.hour).dedup).map
    fun h => (h, meanConsumo (rows.filter fun r => decide (r.dataHora.hour = h)))

/-- Model of `plot_consumo_horario_medio`: assigns the derived `Hora` column on the
caller's frame and returns the per-hour mean consumption. -/
def plot_consumo_horario_medio (df : DF) : DF × List (Nat × ℚ) :=
  let df' : DF := { df with hora := some (df.rows.map fun r => r.dataHora.hour) }
  (df', consumo_horario df.rows)

/-- Model of `Series.between(a, b)`: inclusive on both ends. -/
def pdBetween (h a b : Nat) : Bool :=
  decide (a ≤ h) && decide (h ≤ b)

/-- Model of `plot_distribuicao_consumo`: assigns the derived `Hora` column on the
caller's frame and returns the three band totals, in the fixed order
Pico (hours 18–23), Noturno (hours 0–5), Outros (the double exclusion
`~between(0,5)` then `~between(18,23)`). -/
def plot_distribuicao_consumo (df : DF) : DF × List (String × ℚ) :=
  let df' : DF := { df with hora := some (df.rows.map fun r => r.dataHora.hour) }
  let rows := df.rows
  let pico := sumConsumo (rows.filter fun r => pdBetween r.dataHora.hour 18 23)
  let noturno := sumConsumo (rows.filter fun r => pdBetween r.dataHora.hour 0 5)
  let outros := sumConsumo
    ((rows.filter fun r => !pdBetween r.dataHora.hour 0 5).filter
      fun r => !pdBetween r.dataHora.hour 18 23)
  (df', [("Pico (18h-23h)", pico), ("Noturno (0h-5h)", noturno),
    ("Outros", outros)])

/-! ### Concrete inputs used by witnesses and counterexamples -/

/-- A record observed at 10:00, i.e. strictly after midnight of its day. -/
def cxRecord : Record := ⟨⟨2024, 1, 1, 10, 0⟩, 1, 1⟩

def cxDay : Date := ⟨2024, 1, 1⟩

/-- A header lacking any column that would normalize to `Custo_total`. -/
def frameMissingCost : RawFrame :=
  ⟨["Data/hora", "Consumo_kwh"],
   [[⟨some ⟨2024, 1, 1, 0, 0⟩, none⟩, ⟨none, some 1⟩]]⟩

/-- A well-formed input whose second row has an unparseable timestamp. -/
def frameGood : RawFrame :=
  ⟨["Data/Hora", "Consumo_KWH", "custo total"],
   [[⟨some ⟨2024, 1, 1, 19, 0⟩, none⟩, ⟨none, some 5⟩, ⟨none, some 10⟩],
    [⟨none, none⟩, ⟨none, some 1⟩, ⟨none, some 1⟩]]⟩

/-- A record with negative consumption, as parsed from `frameNegative`. -/
def recNeg : Record := ⟨⟨2024, 1, 1, 0, 0⟩, -5, 2⟩

/-- A well-formed input whose consumption cell is the numeric value `-5`. -/
def frameNegative : RawFrame :=
  ⟨["Data/hora", "Consumo_kwh", "Custo_total"],
   [[⟨some ⟨2024, 1, 1, 0, 0⟩, none⟩, ⟨none, some (-5)⟩, ⟨none, some 2⟩]]⟩

/-- The three parsed records of the end-to-end scenario. -/
def scenarioRecords : List Record :=
  [⟨⟨2024, 1, 1, 19, 0⟩, 5, 10⟩,
   ⟨⟨2024, 1, 1, 2, 0⟩, 3, 6⟩,
   ⟨⟨2024, 1, 2, 19, 0⟩, 4, 8⟩]

/-- The baseline input of the C10 counterexample: exactly the three required
columns and one fully valid row. -/
def frameBase : RawFrame :=
  ⟨["Data/hora", "Consumo_kwh", "Custo_total"],
   [[⟨some ⟨2024, 1, 1, 19, 0⟩, none⟩, ⟨none, some 5⟩, ⟨none, some 10⟩]]⟩

/-- Like `frameBase` but with one extra column `DATA/HORA`, which also normalizes to
`Data/hora`.  The required columns are still all present and the row still
carries the same three critical cells. -/
def frameDup : RawFrame :=
  ⟨["Data/hora", "Consumo_kwh", "Custo_total", "DATA/HORA"],
   [[⟨some ⟨2024, 1, 1, 19, 0⟩, none⟩, ⟨none, some 5⟩, ⟨none, some 10⟩,
     ⟨none, none⟩]]⟩

/-- Like `frameBase` but with one extra column `Notes` (normalizing to a non-required
name) with arbitrary content. -/
def frameExtra : RawFrame :=
  ⟨["Data/hora", "Consumo_kwh", "Custo_total", "Notes"],
   [[⟨some ⟨2024, 1, 1, 19, 0⟩, none⟩, ⟨none, some 5⟩, ⟨none, some 10⟩,
     ⟨none, some 7⟩]]⟩

/-- An input with all required columns present whose extra column
`consumo kwh` also normalizes to `Consumo_kwh`, and whose single row has all
three critical cells parseable. -/
def frameDupConsumo : RawFrame :=
  ⟨["Data/hora", "Consumo_kwh", "Custo_total", "consumo kwh"],
   [[⟨some ⟨2024, 1, 1, 19, 0⟩, none⟩, ⟨none, some 5⟩, ⟨none, some 10⟩,
     ⟨none, none⟩]]⟩

/-! ### Helper lemmas -/

theorem tLe_refl (a : DateTime) : tLe a a := by
  unfold tLe; omega

theorem tLe_antisymm {a b : DateTime} (h1 : tLe a b) (h2 : tLe b a) : a = b := by
  cases a; cases b
  unfold tLe at h1 h2
  simp only [DateTime.mk.injEq]
  simp only at h1 h2
  omega

theorem sumConsumo_nil : sumConsumo [] = 0 := rfl

theorem sumConsumo_cons (r : Record) (l : List Record) :
    sumConsumo (r :: l) = r.consumoKwh + sumConsumo l := by
  simp [sumConsumo]

theorem sumConsumo_filter_add (p : Record → Bool) (rows : List Record) :
    sumConsumo (rows.filter p) + sumConsumo (rows.filter fun r => !p r) =
      sumConsumo rows := by
  induction rows with
  | nil => simp [sumConsumo]
  | cons a l ih =>
    cases hp : p a <;>
      simp only [List.filter_cons, hp, Bool.not_true, Bool.not_false,
        if_pos, if_neg, Bool.false_eq_true, ite_false, ite_true,
        sumConsumo_cons] <;> linarith [ih]

theorem sum_over_keys (keys : List Date) (rows : List Record)
    (hnd : keys.Nodup) (hcov : ∀ r ∈ rows, r.dataHora.date ∈ keys) :
    (keys.map fun d =>
      sumConsumo (rows.filter fun r => decide (r.dataHora.date = d))).sum =
      sumConsumo rows := by
  induction keys generalizing rows with
  | nil =>
    have : rows = [] := by
      cases rows with
      | nil => rfl
      | cons a l => exact absurd (hcov a (List.mem_cons_self a l)) (by simp)
    simp [this, sumConsumo]
  | cons k ks ih =>
    have hknotin : k ∉ ks := (List.nodup_cons.mp hnd).1
    have hksnd : ks.Nodup := (List.nodup_cons.mp hnd).2
    have hmap : ∀ d ∈ ks,
        sumConsumo (rows.filter fun r => decide (r.dataHora.date = d)) =
          sumConsumo ((rows.filter fun r => !decide (r.dataHora.date = k)).filter
            fun r => decide (r.dataHora.date = d)) := by
      intro d hd
      rw [List.filter_filter]
      congr 1
      apply List.filter_congr
      intro r _
      cases hrd : decide (r.dataHora.date = d)
      · simp
      · have : r.dataHora.date = d := of_decide_eq_true hrd
        have hne : ¬ (r.dataHora.date = k) := by
          rw [this]; intro hdk; exact hknotin (hdk ▸ hd)
        simp [hne]
    have hcov' : ∀ r ∈ (rows.filter fun r => !decide (r.dataHora.date = k)),
        r.dataHora.date ∈ ks := by
      intro r hr
      rcases List.mem_filter.mp hr with ⟨hmem, hpr⟩
      have hne : ¬ (r.dataHora.date = k) := by
        intro hk
        simp [hk] at hpr
      cases List.mem_cons.mp (hcov r hmem) with
      | inl h => exact absurd h hne
      | inr h => exact h
    calc (((k :: ks)).map fun d =>
          sumConsumo (rows.filter fun r => decide (r.dataHora.date = d))).sum
        = sumConsumo (rows.filter fun r => decide (r.dataHora.date = k)) +
            (ks.map fun d =>
              sumConsumo (rows.filter fun r => decide (r.dataHora.date = d))).sum := by
          simp
      _ = sumConsumo (rows.filter fun r => decide (r.dataHora.date = k)) +
            (ks.map fun d =>
              sumConsumo ((rows.filter fun r => !decide (r.dataHora.date = k)).filter
                fun r => decide (r.dataHora.date = d))).sum := by
          rw [List.map_congr_left hmap]
      _ = sumConsumo (rows.filter fun r => decide (r.dataHora.date = k)) +
            sumConsumo (rows.filter fun r => !decide (r.dataHora.date = k)) := by
          rw [ih _ hksnd hcov']
      _ = sumConsumo rows := sumConsumo_filter_add _ rows

theorem filterMap_map_some_sublist {α β : Type} (f : α → Option β)
    (l : List α) : ((l.filterMap f).map some).Sublist (l.map f) := by
  induction l with
  | nil => simp
  | cons a l ih =>
    cases h : f a with
    | none =>
      simpa [List.filterMap_cons, h] using ih.cons (f a)
    | some b =>
      simpa [List.filterMap_cons, h] using ih.cons₂ (some b)

theorem findCol_isSome_of_contains {header : List String} {c : String}
    (h : (header.map normalizeCol).contains c = true) :
    ∃ i, findCol header c = some i := by
  unfold findCol
  cases hfc : (header.map normalizeCol).findIdx? (fun h => h == c) with
  | some i => exact ⟨i, rfl⟩
  | none =>
    exfalso
    rcases List.contains_iff_exists_mem_beq.mp h with ⟨b, hb, hcb⟩
    have hfalse := (List.findIdx?_eq_none_iff.mp hfc) b hb
    have : c = b := by simpa using hcb
    simp [this] at hfalse

theorem requiredPresent_contains {df : RawFrame}
    (hp : requiredPresent df = true) :
    ∀ c ∈ required_columns, (df.header.map normalizeCol).contains c = true := by
  intro c hc
  exact List.all_eq_true.mp hp c hc

theorem load_data_eq (df : RawFrame) (hp : requiredPresent df = true)
    (hu : requiredUnique df = true) :
    load_data df =
      some ((coreTriples df).filterMap fun t => parseCells t.1 t.2.1 t.2.2) := by
  have hc := requiredPresent_contains hp
  obtain ⟨it, hit⟩ := findCol_isSome_of_contains
    (hc "Data/hora" (by simp [required_columns]))
  obtain ⟨ic, hic⟩ := findCol_isSome_of_contains
    (hc "Consumo_kwh" (by simp [required_columns]))
  obtain ⟨ix, hix⟩ := findCol_isSome_of_contains
    (hc "Custo_total" (by simp [required_columns]))
  unfold load_data coreTriples
  rw [hp, hu, hit, hic, hix]
  rw [List.filterMap_map]
  rfl

theorem parseCells_eq_some_iff {t c x : RawValue} {r : Record} :
    parseCells t c x = some r ↔
      t.asDateTime = some r.dataHora ∧ c.asNum = some r.consumoKwh ∧
        x.asNum = some r.custoTotal := by
  cases r with
  | mk d q v =>
    unfold parseCells
    cases t.asDateTime <;> cases c.asNum <;> cases x.asNum <;>
      simp [Record.mk.injEq, and_assoc, eq_comm]
theorem peak_not_night (h : Nat) (hp : pdBetween h 18 23 = true) :
    pdBetween h 0 5 = false := by
  simp only [pdBetween, Bool.and_eq_true, decide_eq_true_eq] at hp
  simp only [pdBetween, Bool.and_eq_false_iff, decide_eq_false_iff_not]
  omega

theorem band_exactly_one (h : Nat) :
    (pdBetween h 18 23 = true ∧ pdBetween h 0 5 = false ∧
      (!pdBetween h 0 5 && !pdBetween h 18 23) = false) ∨
    (pdBetween h 18 23 = false ∧ pdBetween h 0 5 = true ∧
      (!pdBetween h 0 5 && !pdBetween h 18 23) = false) ∨
    (pdBetween h 18 23 = false ∧ pdBetween h 0 5 = false ∧
      (!pdBetween h 0 5 && !pdBetween h 18 23) = true) := by
  rcases Nat.lt_or_ge h 6 with h6 | h6
  · right; left
    refine ⟨?_, ?_, ?_⟩ <;> simp [pdBetween] <;> omega
  rcases Nat.lt_or_ge h 18 with h18 | h18
  · right; right
    refine ⟨?_, ?_, ?_⟩ <;> simp [pdBetween] <;> omega
  rcases Nat.lt_or_ge h 24 with h24 | h24
  · left
    refine ⟨?_, ?_, ?_⟩ <;> simp [pdBetween] <;> omega
  · right; right
    refine ⟨?_, ?_, ?_⟩ <;> simp [pdBetween] <;> omega

theorem band_partition (rows : List Record) :
    sumConsumo (rows.filter fun r => pdBetween r.dataHora.hour 18 23) +
      sumConsumo (rows.filter fun r => pdBetween r.dataHora.hour 0 5) +
      sumConsumo ((rows.filter fun r => !pdBetween r.dataHora.hour 0 5).filter
        fun r => !pdBetween r.dataHora.hour 18 23) = sumConsumo rows := by
  have h1 := sumConsumo_filter_add (fun r => pdBetween r.dataHora.hour 0 5) rows
  have h2 := sumConsumo_filter_add (fun r => pdBetween r.dataHora.hour 18 23)
    (rows.filter fun r => !pdBetween r.dataHora.hour 0 5)
  have h3 : (rows.filter fun r => !pdBetween r.dataHora.hour 0 5).filter
      (fun r => pdBetween r.dataHora.hour 18 23) =
      rows.filter fun r => pdBetween r.dataHora.hour 18 23 := by
    rw [List.filter_filter]
    apply List.filter_congr
    intro r _
    cases hpk : pdBetween r.dataHora.hour 18 23
    · simp
    · simp [peak_not_night _ hpk]
  rw [h3] at h2
  linarith

theorem load_data_some_inv {df : RawFrame} {out : List Record}
    (h : load_data df = some out) :
    requiredPresent df = true ∧ requiredUnique df = true := by
  unfold load_data at h
  cases hp : requiredPresent df with
  | false => rw [hp] at h; simp at h
  | true =>
    cases hu : requiredUnique df with
    | false => rw [hp, hu] at h; simp at h
    | true => exact ⟨rfl, rfl⟩

/-- C1 counterexample: a record at 10:00 on day `D`. With
`start_date = end_date = D` the claim says it is returned (its date component
is `D`); the filter compares against `pd.to_datetime(D)` = midnight of `D` on
both ends and drops it. -/
theorem c1_counterexample :
    cxRecord.dataHora.date = cxDay ∧
    display_filtered_data [cxRecord] cxDay cxDay = [] ∧
    display_filtered_data [cxRecord] cxDay cxDay ≠ [cxRecord] := by
  refine ⟨rfl, ?_, ?_⟩ <;> decide

/-- C1 (amended): the date-range filter keeps exactly the records whose
timestamp lies in the inclusive interval from midnight of `start_date` to
midnight of `end_date`; in particular with `start_date = end_date = D` it
keeps exactly the records whose timestamp is exactly midnight of `D`. -/
theorem c1_filter_midnight_bounds (data : List Record) (s e D : Date)
    (r : Record) :
    (r ∈ display_filtered_data data s e ↔
      r ∈ data ∧ tLe (dtMidnight s) r.dataHora ∧
        tLe r.dataHora (dtMidnight e)) ∧
    (r ∈ display_filtered_data data D D ↔
      r ∈ data ∧ r.dataHora = dtMidnight D) := by
  constructor
  · simp [display_filtered_data, List.mem_filter, and_assoc]
  · simp only [display_filtered_data, List.mem_filter, Bool.and_eq_true,
      decide_eq_true_eq]
    constructor
    · rintro ⟨hmem, h1, h2⟩
      exact ⟨hmem, tLe_antisymm h2 h1⟩
    · rintro ⟨hmem, heq⟩
      exact ⟨hmem, heq ▸ tLe_refl _, heq ▸ tLe_refl _⟩

/-- C2 counterexample: running the daily aggregation on a freshly loaded
frame changes the frame observable afterwards (it gains the `Dia` column). -/
theorem c2_counterexample :
    (plot_consumo_por_dia (mkDF [cxRecord])).1 ≠ mkDF [cxRecord] := by
  decide

/-- C2 (amended): each aggregator adds a derived column to the input frame
in place, but the record rows (the three core columns) observable after any
aggregator are identical to those passed in. -/
theorem c2_rows_never_mutated (df : DF) :
    (plot_consumo_por_dia df).1.rows = df.rows ∧
    (plot_consumo_horario_medio df).1.rows = df.rows ∧
    (plot_distribuicao_consumo df).1.rows = df.rows := by
  refine ⟨?_, rfl, rfl⟩
  unfold plot_consumo_por_dia
  cases h : idxmax (consumo_diario df.rows) <;> simp [h]

/-- C3 counterexample: a row whose consumption cell carries the numeric value
`-5` survives the loader, so a surviving record can have
`consumption_kwh < 0`. -/
theorem c3_counterexample :
    load_data frameNegative = some [recNeg] ∧ recNeg.consumoKwh < 0 := by
  refine ⟨by decide, ?_⟩
  norm_num [recNeg]

/-- C3 (amended): every record surviving the loader has all three fields
present and well-typed — each comes from a row whose three critical cells all
coerced successfully — but no sign check is applied to the consumption. -/
theorem c3_surviving_records_well_typed (df : RawFrame) (out : List Record)
    (r : Record) (h : load_data df = some out) (hr : r ∈ out) :
    ∃ t ∈ coreTriples df,
      t.1.asDateTime = some r.dataHora ∧ t.2.1.asNum = some r.consumoKwh ∧
        t.2.2.asNum = some r.custoTotal := by
  obtain ⟨hp, hu⟩ := load_data_some_inv h
  rw [load_data_eq df hp hu] at h
  injection h with h
  subst h
  rcases List.mem_filterMap.mp hr with ⟨t, ht, hparse⟩
  exact ⟨t, ht, parseCells_eq_some_iff.mp hparse⟩

theorem c3_witness :
    load_data frameNegative = some [recNeg] ∧ recNeg ∈ [recNeg] ∧
    ∃ t ∈ coreTriples frameNegative,
      t.1.asDateTime = some recNeg.dataHora ∧
        t.2.1.asNum = some recNeg.consumoKwh ∧
        t.2.2.asNum = some recNeg.custoTotal :=
  ⟨by decide, by simp,
    c3_surviving_records_well_typed frameNegative [recNeg] recNeg (by decide)
      (by simp)⟩

/-- C5: if, after normalization, any required column is absent from the
header, the loader fails (returns `none`) regardless of row content — no
partial record sequence is produced. -/
theorem c5_missing_column_aborts_load (df : RawFrame) (c : String)
    (hc : c ∈ required_columns)
    (habs : (df.header.map normalizeCol).contains c = false) :
    load_data df = none := by
  cases hp : requiredPresent df with
  | false => simp [load_data, hp]
  | true =>
    exfalso
    have := requiredPresent_contains hp c hc
    rw [habs] at this
    exact Bool.false_ne_true this

theorem c5_witness :
    "Custo_total" ∈ required_columns ∧
    (frameMissingCost.header.map normalizeCol).contains "Custo_total" = false ∧
    load_data frameMissingCost = none :=
  ⟨by decide, by decide,
    c5_missing_column_aborts_load frameMissingCost "Custo_total" (by decide)
      (by decide)⟩

/-- C4: on the empty record sequence the hourly aggregator and the band
classifier do complete with empty/zero outputs, but the daily aggregator's
maximum-day report calls `idxmax` on an empty series, which raises
`ValueError` (modelled as a `none` result) instead of yielding an absent
maximum. -/
theorem c4_empty_input_behaviour :
    (plot_consumo_por_dia (mkDF [])).2 = none ∧
    (plot_consumo_horario_medio (mkDF [])).2 = [] ∧
    (plot_distribuicao_consumo (mkDF [])).2 =
      [("Pico (18h-23h)", 0), ("Noturno (0h-5h)", 0), ("Outros", 0)] := by
  refine ⟨rfl, rfl, rfl⟩

/-- C6 counterexample: `frameDupConsumo` has all required columns present
(the presence check passes), and its single row's three critical cells all
coerce successfully, yet the loader returns `None` — the extra `consumo kwh`
column duplicates the normalized label `Consumo_kwh`, so `pd.to_numeric`
receives a two-column selection and raises.  No output sequence exists, so
the claimed retention property fails on an input with all required columns
present. -/
theorem c6_counterexample :
    requiredPresent frameDupConsumo = true ∧
    coreTriples frameDupConsumo =
      [(⟨some ⟨2024, 1, 1, 19, 0⟩, none⟩, ⟨none, some 5⟩, ⟨none, some 10⟩)] ∧
    parseCells ⟨some ⟨2024, 1, 1, 19, 0⟩, none⟩ ⟨none, some 5⟩
      ⟨none, some 10⟩ = some ⟨⟨2024, 1, 1, 19, 0⟩, 5, 10⟩ ∧
    load_data frameDupConsumo = none := by
  refine ⟨by decide, by decide, by decide, by decide⟩

/-- C6 (amended): when the required columns are present and each matches
exactly one header column after normalization, the loader succeeds; a row
appears in the output iff all three of its critical cells coerced
successfully, the output length is at most the row count, and the surviving
records appear in original row order (their parses form a subsequence of the
per-row parse results). -/
theorem c6_row_retention (df : RawFrame)
    (hp : requiredPresent df = true) (hu : requiredUnique df = true) :
    ∃ out : List Record,
      load_data df = some out ∧
      out.length ≤ df.rows.length ∧
      (∀ r : Record, r ∈ out ↔ ∃ t ∈ coreTriples df,
        t.1.asDateTime = some r.dataHora ∧ t.2.1.asNum = some r.consumoKwh ∧
          t.2.2.asNum = some r.custoTotal) ∧
      (out.map some).Sublist
        ((coreTriples df).map fun t => parseCells t.1 t.2.1 t.2.2) := by
  refine ⟨_, load_data_eq df hp hu, ?_, ?_, ?_⟩
  · calc ((coreTriples df).filterMap fun t => parseCells t.1 t.2.1 t.2.2).length
        ≤ (coreTriples df).length := List.length_filterMap_le _ _
      _ ≤ df.rows.length := by
        unfold coreTriples
        split <;> simp
  · intro r
    simp [List.mem_filterMap, parseCells_eq_some_iff]
  · exact filterMap_map_some_sublist _ _

theorem c6_witness :
    requiredPresent frameGood = true ∧ requiredUnique frameGood = true ∧
    ∃ out : List Record,
      load_data frameGood = some out ∧
      out.length ≤ frameGood.rows.length ∧
      (∀ r : Record, r ∈ out ↔ ∃ t ∈ coreTriples frameGood,
        t.1.asDateTime = some r.dataHora ∧ t.2.1.asNum = some r.consumoKwh ∧
          t.2.2.asNum = some r.custoTotal) ∧
      (out.map some).Sublist
        ((coreTriples frameGood).map fun t => parseCells t.1 t.2.1 t.2.2) :=
  ⟨by decide, by decide, c6_row_retention frameGood (by decide) (by decide)⟩

theorem map_pair_fst {α β : Type} (l : List α) (f : α → β) :
    (l.map fun d => (d, f d)).map Prod.fst = l := by
  induction l with
  | nil => rfl
  | cons a l ih => simp [ih]

theorem map_pair_snd {α β : Type} (l : List α) (f : α → β) :
    (l.map fun d => (d, f d)).map Prod.snd = l.map f := by
  induction l with
  | nil => rfl
  | cons a l ih => simp [ih]

/-- C7: daily aggregation is conservative — the daily totals sum to the total
consumption of the input — and its entries are keyed by the distinct dates
present, sorted ascending with one entry per date. -/
theorem c7_daily_conservation (rows : List Record) (_hne : rows ≠ []) :
    ((consumo_diario rows).map Prod.snd).sum = sumConsumo rows ∧
    List.Sorted dLe ((consumo_diario rows).map Prod.fst) ∧
    ((consumo_diario rows).map Prod.fst).Nodup ∧
    (∀ d : Date, d ∈ (consumo_diario rows).map Prod.fst ↔
      d ∈ rows.map fun r => r.dataHora.date) := by
  have hnd : (List.insertionSort dLe
      ((rows.map fun r => r.dataHora.date).dedup)).Nodup :=
    (List.perm_insertionSort dLe _).nodup_iff.mpr (List.nodup_dedup _)
  have hcov : ∀ r ∈ rows, r.dataHora.date ∈
      List.insertionSort dLe ((rows.map fun r => r.dataHora.date).dedup) := by
    intro r hr
    rw [List.mem_insertionSort, List.mem_dedup]
    exact List.mem_map.mpr ⟨r, hr, rfl⟩
  refine ⟨?_, ?_, ?_, ?_⟩
  · unfold consumo_diario
    rw [map_pair_snd]
    exact sum_over_keys _ rows hnd hcov
  · unfold consumo_diario
    rw [map_pair_fst]
    exact List.sorted_insertionSort dLe _
  · unfold consumo_diario
    rw [map_pair_fst]
    exact hnd
  · intro d
    unfold consumo_diario
    rw [map_pair_fst]
    simp [List.mem_insertionSort, List.mem_dedup]

theorem c7_witness :
    ([cxRecord] : List Record) ≠ [] ∧
    (((consumo_diario [cxRecord]).map Prod.snd).sum = sumConsumo [cxRecord] ∧
    List.Sorted dLe ((consumo_diario [cxRecord]).map Prod.fst) ∧
    ((consumo_diario [cxRecord]).map Prod.fst).Nodup ∧
    (∀ d : Date, d ∈ (consumo_diario [cxRecord]).map Prod.fst ↔
      d ∈ ([cxRecord] : List Record).map fun r => r.dataHora.date)) :=
  ⟨by simp, c7_daily_conservation [cxRecord] (by simp)⟩

/-- C8: the band classifier always reports exactly the three categories in
the order Peak, Night, Other; the three totals sum to the total consumption
of the input (partition law); and every hour-of-day falls in exactly one of
the three bands. -/
theorem c8_band_partition (df : DF) :
    ((plot_distribuicao_consumo df).2.map Prod.fst =
      ["Pico (18h-23h)", "Noturno (0h-5h)", "Outros"]) ∧
    ((plot_distribuicao_consumo df).2.map Prod.snd).sum = sumConsumo df.rows ∧
    (∀ h : Nat,
      (pdBetween h 18 23 = true ∧ pdBetween h 0 5 = false ∧
        (!pdBetween h 0 5 && !pdBetween h 18 23) = false) ∨
      (pdBetween h 18 23 = false ∧ pdBetween h 0 5 = true ∧
        (!pdBetween h 0 5 && !pdBetween h 18 23) = false) ∨
      (pdBetween h 18 23 = false ∧ pdBetween h 0 5 = false ∧
        (!pdBetween h 0 5 && !pdBetween h 18 23) = true)) := by
  refine ⟨rfl, ?_, band_exactly_one⟩
  show sumConsumo (df.rows.filter fun r => pdBetween r.dataHora.hour 18 23) +
      (sumConsumo (df.rows.filter fun r => pdBetween r.dataHora.hour 0 5) +
        (sumConsumo ((df.rows.filter fun r =>
          !pdBetween r.dataHora.hour 0 5).filter
            fun r => !pdBetween r.dataHora.hour 18 23) + 0)) = sumConsumo df.rows
  have := band_partition df.rows
  linarith

/-- C9: end-to-end scenario on the three records
(2024-01-01 19:00, 5, 10), (2024-01-01 02:00, 3, 6), (2024-01-02 19:00, 4, 8):
daily totals are 8 on 2024-01-01 and 4 on 2024-01-02 with maximum day
2024-01-01; hourly averages are 3 at hour 2 and 4.5 at hour 19; band totals
are Peak 9, Night 3, Other 0. -/
theorem c9_end_to_end :
    (plot_consumo_por_dia (mkDF scenarioRecords)).2 =
      some ([(⟨2024, 1, 1⟩, 8), (⟨2024, 1, 2⟩, 4)], ⟨2024, 1, 1⟩) ∧
    (plot_consumo_horario_medio (mkDF scenarioRecords)).2 =
      [(2, 3), (19, 9/2)] ∧
    (plot_distribuicao_consumo (mkDF scenarioRecords)).2 =
      [("Pico (18h-23h)", 9), ("Noturno (0h-5h)", 3), ("Outros", 0)] := by
  refine ⟨?_, ?_, ?_⟩
  · norm_num [plot_consumo_por_dia, mkDF, consumo_diario, scenarioRecords,
      sumConsumo, DateTime.date, dLe, idxmax, idxmaxGo]
  · norm_num [plot_consumo_horario_medio, mkDF, consumo_horario,
      scenarioRecords, meanConsumo, sumConsumo, DateTime.date]
  · norm_num [plot_distribuicao_consumo, mkDF, scenarioRecords, sumConsumo,
      pdBetween]

/-- C10 counterexample: `frameBase` and `frameDup` both contain every
required column after normalization and agree on the three critical cells of
their single row, yet the loader returns a record for `frameBase` and fails
on `frameDup`: the extra column `DATA/HORA` normalizes to the required label
`Data/hora`, the duplicated label makes `pd.to_datetime` receive a two-column
selection and raise, and `load_data` returns `None`. -/
theorem c10_counterexample :
    requiredPresent frameBase = true ∧ requiredPresent frameDup = true ∧
    coreTriples frameBase = coreTriples frameDup ∧
    load_data frameBase =
      some [⟨⟨2024, 1, 1, 19, 0⟩, 5, 10⟩] ∧
    load_data frameDup = none := by
  refine ⟨by decide, by decide, by decide, by decide, by decide⟩

/-- C10 (amended): provided each required column name matches exactly one
header column after normalization, extra columns never influence the result:
two inputs agreeing on the three critical cells of every row load to the
identical record sequence. -/
theorem c10_extra_columns_irrelevant (df1 df2 : RawFrame)
    (h1p : requiredPresent df1 = true) (h1u : requiredUnique df1 = true)
    (h2p : requiredPresent df2 = true) (h2u : requiredUnique df2 = true)
    (hagree : coreTriples df1 = coreTriples df2) :
    load_data df1 = load_data df2 := by
  rw [load_data_eq df1 h1p h1u, load_data_eq df2 h2p h2u, hagree]

theorem c10_witness :
    requiredPresent frameBase = true ∧ requiredUnique frameBase = true ∧
    requiredPresent frameExtra = true ∧ requiredUnique frameExtra = true ∧
    coreTriples frameBase = coreTriples frameExtra ∧
    load_data frameBase = load_data frameExtra :=
  ⟨by decide, by decide, by decide, by decide, by decide,
    c10_extra_columns_irrelevant frameBase frameExtra (by decide) (by decide)
      (by decide) (by decide) (by decide)⟩
